import Mathlib

/-!
Shallow embedding of the pipeline-orchestration and progress-broadcast
subsystem of the ad-planner repository:

* `app/utils/analytics.py` — `calculate_reach_percentage`, `calculate_budget_scaling`
* `app/progress_tracker.py` — `ProgressTracker` (subscribe / unsubscribe / update_progress)
* `app/api/plan_with_progress.py` — `create_plan_with_progress` (event traces),
  `stream_progress.event_generator` (stream-closing policy)

Python `int()` applied to a non-negative value truncates (floor); rationals
model the exact arithmetic of progress percentages, and reals model
`math.pow(x, 1.3)` with the exact exponent 13/10.  Wall-clock timestamps are
omitted (pure data irrelevant to every claim).
-/

/-- Python `int(x)` on a rational: truncation toward zero. -/
def pytruncQ (q : ℚ) : ℤ := if 0 ≤ q then ⌊q⌋ else ⌈q⌉

/-- Python `int(x)` on a real: truncation toward zero. -/
noncomputable def pytruncR (x : ℝ) : ℤ := if 0 ≤ x then ⌊x⌋ else ⌈x⌉

/-- Python `round(q, k)` on exact rationals (no ties arise at any input the
theorems below evaluate, so nearest-with-half-up agrees with Python's
float rounding there). -/
def roundQ (k : ℕ) (q : ℚ) : ℚ := ((round (q * 10 ^ k) : ℤ) : ℚ) / 10 ^ k

/-- Python `round(x, k)` on reals. -/
noncomputable def roundR (k : ℕ) (x : ℝ) : ℝ := ((round (x * 10 ^ k) : ℤ) : ℝ) / 10 ^ k

/- ---------------------------------------------------------------------------
Thousands-separator formatting, Python `f"{n:,}"`.
--------------------------------------------------------------------------- -/

/-- Group a (reversed-digit) character list into blocks of three, least
significant block first. -/
def chunk3 : List Char → List (List Char)
  | a :: b :: c :: d :: rest => [a, b, c] :: chunk3 (d :: rest)
  | l => [l]

/-- Python `f"{n:,}"` for a natural number. -/
def commaFmt (n : ℕ) : String :=
  String.mk (List.intercalate [','] (((chunk3 (Nat.toDigits 10 n).reverse).reverse).map List.reverse))

/-- Python `f"{z:,}"` for an integer. -/
def commaFmtZ (z : ℤ) : String :=
  if z < 0 then "-" ++ commaFmt z.natAbs else commaFmt z.toNat

example : commaFmt 30000 = "30,000" := by decide
example : commaFmt 999 = "999" := by decide
example : commaFmt 0 = "0" := by decide

/- ---------------------------------------------------------------------------
`calculate_reach_percentage` (app/utils/analytics.py lines 7-83)
--------------------------------------------------------------------------- -/

/-- A character matched by the token-extraction regex `[\d,]+` (ASCII reading
of `\d`; the theorems about arbitrary inputs restrict to ASCII text, where
this coincides with Python's `\d`). -/
def isTok (c : Char) : Bool := c.isDigit || c = ','

/-- `re.findall(r'[\d,]+', s)`: the maximal runs of digit/comma characters,
left to right.  Implemented as a single left fold carrying the finished
tokens and the currently open run. -/
def scanTokens (s : List Char) : List (List Char) :=
  let step : List (List Char) × List Char → Char → List (List Char) × List Char :=
    fun st c =>
      if isTok c then (st.1, st.2 ++ [c])
      else if st.2 = [] then (st.1, [])
      else (st.1 ++ [st.2], [])
  let fin := s.foldl step ([], [])
  if fin.2 = [] then fin.1 else fin.1 ++ [fin.2]

example : scanTokens "15,000-20,000".data = ["15,000".data, "20,000".data] := by decide
example : scanTokens "no digits".data = [] := by decide
example : scanTokens ",".data = [[',']] := by decide

/-- `int(token.replace(',', ''))`: drop the commas and read the decimal
digits; `none` models the `ValueError` that Python's `int("")` raises when
the token consisted solely of commas. -/
def parsePyNat (tok : List Char) : Option ℕ :=
  match tok.filter (fun c => c ≠ ',') with
  | [] => none
  | ds => some (ds.foldl (fun n c => 10 * n + (c.toNat - 48)) 0)

example : parsePyNat "15,000".data = some 15000 := by decide
example : parsePyNat ",,".data = none := by decide

/-- Outcome of the token-extraction and `int(...)` parsing prefix of
`calculate_reach_percentage`: no tokens at all, a raised `ValueError`
(a consulted token held no digits), or the two parsed bounds. -/
inductive ReachTokens where
  | noTokens : ReachTokens
  | badToken : ReachTokens
  | bounds (reach_min reach_max : ℕ) : ReachTokens
deriving DecidableEq

/-- Lines 20-31 of `analytics.py`: `numbers = re.findall(...)`,
`reach_min = int(numbers[0]...)`,
`reach_max = int(numbers[1]...) if len(numbers) > 1 else reach_min`. -/
def parseReachTokens (reach_string : String) : ReachTokens :=
  match scanTokens reach_string.data with
  | [] => .noTokens
  | t0 :: rest =>
    match parsePyNat t0 with
    | none => .badToken
    | some rmin =>
      match rest with
      | [] => .bounds rmin rmin
      | t1 :: _ =>
        match parsePyNat t1 with
        | none => .badToken
        | some rmax => .bounds rmin rmax

example : parseReachTokens "15,000-20,000" = .bounds 15000 20000 := by decide
example : parseReachTokens "about 5000 people" = .bounds 5000 5000 := by decide
example : parseReachTokens "," = .badToken := by decide

/-- The fixed metro-population table, in source (insertion) order. -/
def population_estimates : List (List Char × ℕ) :=
  [("new york".data, 8000000),
   ("los angeles".data, 5000000),
   ("chicago".data, 3500000),
   ("san francisco".data, 1200000),
   ("seattle".data, 900000),
   ("boston".data, 800000),
   ("portland".data, 700000),
   ("denver".data, 800000),
   ("austin".data, 1000000),
   ("miami".data, 900000)]

/-- `pat` occurs as a contiguous substring of `l` (Python's `in` on strings). -/
def strMem (pat : List Char) : List Char → Bool
  | [] => decide (pat = [])
  | c :: cs => pat.isPrefixOf (c :: cs) || strMem pat cs

example : strMem "york".data "new york city".data = true := by decide
example : strMem "york".data "boston".data = false := by decide

/-- Lines 48-60 of `analytics.py`: first substring match against the table
(lower-cased location), else the locality-dependent default. -/
def lookupPopulation (location : String) (is_local : Bool) : ℕ :=
  let location_lower := location.data.map Char.toLower
  match population_estimates.findSome?
      (fun p => if strMem p.1 location_lower then some p.2 else none) with
  | some pop => pop
  | none => if is_local then 500000 else 10000000

/-- Lines 63-66 of `analytics.py`: `int(population * 0.25)` for a local
business, else the population itself.  For a natural `population`,
truncating `population * 0.25` is exactly the truncating division
`population * 25 / 100`. -/
def targetPopulation (location : String) (is_local : Bool) : ℕ :=
  let population := lookupPopulation location is_local
  if is_local then population * 25 / 100 else population

example : targetPopulation "San Francisco" true = 300000 := by decide
example : targetPopulation "Unknown Town" false = 10000000 := by decide

/-- Result of `calculate_reach_percentage`: either the degenerate
"Unknown" dictionary (reach bounds 0, percentage fields unavailable) or the
full analytics dictionary.  The `percentage_display` string of the source
merely re-renders `percentage_min`/`percentage_max` and is not modelled as a
separate field. -/
inductive ReachAnalytics where
  | unknown : ReachAnalytics
  | result (reach_min reach_max target_population : ℕ)
      (percentage_min percentage_max : ℚ) : ReachAnalytics
deriving DecidableEq

/-- `calculate_reach_percentage(reach_string, location, is_local)`
(analytics.py lines 7-83).  `none` models a raised `ValueError`. -/
def calculate_reach_percentage (reach_string location : String) (is_local : Bool) :
    Option ReachAnalytics :=
  match parseReachTokens reach_string with
  | .noTokens => some .unknown
  | .badToken => none
  | .bounds reach_min reach_max =>
    let target_population := targetPopulation location is_local
    some (.result reach_min reach_max target_population
      (roundQ 1 (((reach_min : ℚ) / (target_population : ℚ)) * 100))
      (roundQ 1 (((reach_max : ℚ) / (target_population : ℚ)) * 100)))

example : calculate_reach_percentage "no numeric data here" "Unknown Town" false
    = some .unknown := by decide

example : calculate_reach_percentage "," "x" false = none := by decide

example :
    calculate_reach_percentage "15,000-20,000" "San Francisco" true
      = some (.result 15000 20000 300000 5 (67 / 10)) := by
  have hp : parseReachTokens "15,000-20,000" = .bounds 15000 20000 := by decide
  have ht : targetPopulation "San Francisco" true = 300000 := by decide
  simp only [calculate_reach_percentage, hp, ht]
  norm_num [roundQ, round_eq]

/- ---------------------------------------------------------------------------
`calculate_budget_scaling` (app/utils/analytics.py lines 86-143)
--------------------------------------------------------------------------- -/

/-- The dictionary returned by `calculate_budget_scaling`. -/
structure BudgetScaling where
  current_budget : ℤ
  recommended_budget : ℤ
  budget_increase : ℤ
  budget_increase_percent : ℝ
  current_reach_range : String
  target_reach_range : String
  current_cost_per_reach : ℝ
  new_cost_per_reach : ℝ
  efficiency_change_percent : ℝ

/-- The dictionary `calculate_budget_scaling` builds (analytics.py lines
108-143) on the domain where `math.pow` succeeds.
`math.pow(target_multiplier, 1.3)` is modelled as the real power with
exact exponent `13/10`, which agrees with CPython's `math.pow` on the
non-negative domain; every Python `int(...)` is the truncation
`pytruncR`.  The cost-per-reach guards divide only when the corresponding
average reach is positive, exactly as the source's conditional
expressions do, and `efficiency_change_percent` is computed from the
unrounded cost values while the two cost fields are rounded to two
decimals, as in the source dictionary literal. -/
noncomputable def budgetScalingDict (current_budget : ℤ)
    (current_reach_min current_reach_max : ℕ) (target_multiplier : ℝ) :
    BudgetScaling :=
  let current_reach_avg : ℝ := ((current_reach_min : ℝ) + (current_reach_max : ℝ)) / 2
  let target_reach_min : ℤ := pytruncR ((current_reach_min : ℝ) * target_multiplier)
  let target_reach_max : ℤ := pytruncR ((current_reach_max : ℝ) * target_multiplier)
  let target_reach_avg : ℤ := pytruncR (current_reach_avg * target_multiplier)
  let budget_multiplier : ℝ := target_multiplier ^ ((13 : ℝ) / 10)
  let recommended_budget : ℤ := pytruncR ((current_budget : ℝ) * budget_multiplier)
  let current_cost_per_reach : ℝ :=
    if 0 < current_reach_avg then (current_budget : ℝ) / current_reach_avg else 0
  let new_cost_per_reach : ℝ :=
    if 0 < target_reach_avg then (recommended_budget : ℝ) / (target_reach_avg : ℝ) else 0
  { current_budget := current_budget
    recommended_budget := recommended_budget
    budget_increase := recommended_budget - current_budget
    budget_increase_percent :=
      if 0 < current_budget then
        roundR 1 (((recommended_budget : ℝ) / (current_budget : ℝ) - 1) * 100)
      else 0
    current_reach_range := commaFmt current_reach_min ++ "-" ++ commaFmt current_reach_max
    target_reach_range := commaFmtZ target_reach_min ++ "-" ++ commaFmtZ target_reach_max
    current_cost_per_reach := roundR 2 current_cost_per_reach
    new_cost_per_reach := roundR 2 new_cost_per_reach
    efficiency_change_percent :=
      if 0 < current_cost_per_reach then
        roundR 1 ((new_cost_per_reach / current_cost_per_reach - 1) * 100)
      else 0 }

/-- `calculate_budget_scaling(current_budget, current_reach_min,
current_reach_max, target_multiplier)` (analytics.py lines 86-143).  For a
NEGATIVE `target_multiplier`, CPython's `math.pow` raises `ValueError`
(finite negative base, non-integral exponent 1.3) before anything is
returned, so the function yields `none` there, modelling the raised
exception; otherwise it returns the dictionary `budgetScalingDict`. -/
noncomputable def calculate_budget_scaling (current_budget : ℤ)
    (current_reach_min current_reach_max : ℕ) (target_multiplier : ℝ) :
    Option BudgetScaling :=
  if target_multiplier < 0 then none
  else some (budgetScalingDict current_budget current_reach_min current_reach_max
    target_multiplier)

/-- On the non-negative multiplier domain the function returns its
dictionary. -/
lemma calculate_budget_scaling_nonneg (current_budget : ℤ)
    (current_reach_min current_reach_max : ℕ) (target_multiplier : ℝ)
    (h : ¬ target_multiplier < 0) :
    calculate_budget_scaling current_budget current_reach_min current_reach_max
        target_multiplier
      = some (budgetScalingDict current_budget current_reach_min current_reach_max
          target_multiplier) := by
  unfold calculate_budget_scaling
  rw [if_neg h]

/-- Tenth powers undo the rational exponent `13/10`. -/
lemma rpow_13_10_pow_ten (r : ℝ) (h : 0 ≤ r) :
    (r ^ ((13 : ℝ) / 10)) ^ (10 : ℕ) = r ^ (13 : ℕ) := by
  rw [← Real.rpow_natCast (r ^ ((13 : ℝ) / 10)) 10, ← Real.rpow_mul h]
  norm_num
  rw [← Real.rpow_natCast r 13]
  norm_num

/-- `2.462 ≤ 2^1.3` (tenth powers: `1231^10 ≤ 8192·500^10`). -/
lemma two_rpow_lb : (1231 / 500 : ℝ) ≤ (2 : ℝ) ^ ((13 : ℝ) / 10) := by
  have h10 : (10 : ℕ) ≠ 0 := by norm_num
  have hr : (0 : ℝ) < (2 : ℝ) ^ ((13 : ℝ) / 10) := Real.rpow_pos_of_pos (by norm_num) _
  refine le_of_pow_le_pow_left₀ h10 hr.le ?_
  rw [rpow_13_10_pow_ten 2 (by norm_num)]
  norm_num

/-- `2.4622 ≤ 2^1.3`, the sharper bound that places `2500·2^1.3` above
`6155.5`. -/
lemma two_rpow_lb' : (12311 / 5000 : ℝ) ≤ (2 : ℝ) ^ ((13 : ℝ) / 10) := by
  have h10 : (10 : ℕ) ≠ 0 := by norm_num
  have hr : (0 : ℝ) < (2 : ℝ) ^ ((13 : ℝ) / 10) := Real.rpow_pos_of_pos (by norm_num) _
  refine le_of_pow_le_pow_left₀ h10 hr.le ?_
  rw [rpow_13_10_pow_ten 2 (by norm_num)]
  norm_num

/-- `2^1.3 < 2.4624` (tenth powers: `8192·625^10 < 1539^10`). -/
lemma two_rpow_ub : (2 : ℝ) ^ ((13 : ℝ) / 10) < (1539 / 625 : ℝ) := by
  refine lt_of_pow_lt_pow_left₀ 10 (by norm_num) ?_
  rw [rpow_13_10_pow_ten 2 (by norm_num)]
  norm_num

/-- The source's `int(2500 * math.pow(2.0, 1.3))` is `6155` (the exact
product lies in `[6155.5, 6156)`). -/
lemma pytrunc_budget_2500 : pytruncR ((2500 : ℝ) * (2 : ℝ) ^ ((13 : ℝ) / 10)) = 6155 := by
  have hr : (0 : ℝ) < (2 : ℝ) ^ ((13 : ℝ) / 10) := Real.rpow_pos_of_pos (by norm_num) _
  have hx : (0 : ℝ) ≤ (2500 : ℝ) * (2 : ℝ) ^ ((13 : ℝ) / 10) := by positivity
  rw [pytruncR, if_pos hx, Int.floor_eq_iff]
  constructor
  · push_cast
    nlinarith [two_rpow_lb]
  · push_cast
    nlinarith [two_rpow_ub]

/-- Rounding `2500 * 2^1.3` to the nearest integer gives `6156`, one more
than the truncation the source performs. -/
lemma round_budget_2500 : round ((2500 : ℝ) * (2 : ℝ) ^ ((13 : ℝ) / 10)) = 6156 := by
  rw [round_eq, Int.floor_eq_iff]
  constructor
  · push_cast
    nlinarith [two_rpow_lb']
  · push_cast
    nlinarith [two_rpow_ub]

/- ---------------------------------------------------------------------------
`ProgressTracker` (app/progress_tracker.py)
--------------------------------------------------------------------------- -/

/-- The dictionary built by `ProgressTracker.update_progress` (the wall-clock
`timestamp` field is omitted). -/
structure ProgressEvent where
  step : ℕ
  total_steps : ℕ
  progress_percent : ℤ
  agent_name : String
  status : String
  message : String
deriving DecidableEq

/-- `int((step / total_steps) * 100)` from `update_progress`. -/
def progressPercent (step total_steps : ℕ) : ℤ :=
  pytruncQ (((step : ℚ) / (total_steps : ℚ)) * 100)

/-- `ProgressTracker` state.  Queues are modelled by identity: `subscribers`
maps a session id to the identifier of its current `asyncio.Queue`, and
`queues` maps each queue identifier ever created to its contents, so that a
queue replaced by a re-subscription still exists (merely unreferenced), as
in the source. -/
structure TrackerState where
  progress_data : List (String × ProgressEvent)
  subscribers : List (String × ℕ)
  queues : List (ℕ × List ProgressEvent)
  nextQueue : ℕ
deriving DecidableEq

/-- Association-list update (insert or overwrite). -/
def setAssoc {α β : Type} [DecidableEq α] (k : α) (v : β) : List (α × β) → List (α × β)
  | [] => [(k, v)]
  | (k1, v1) :: rest => if k1 = k then (k, v) :: rest else (k1, v1) :: setAssoc k v rest

/-- Association-list lookup. -/
def getAssoc {α β : Type} [DecidableEq α] (k : α) : List (α × β) → Option β
  | [] => none
  | (k1, v1) :: rest => if k1 = k then some v1 else getAssoc k rest

/-- `ProgressTracker.subscribe`: create a fresh empty queue and make it the
session's (sole) subscriber; returns the queue('s identifier). -/
def subscribe (s : TrackerState) (session_id : String) : TrackerState × ℕ :=
  let qid := s.nextQueue
  ({ s with
      subscribers := setAssoc session_id qid s.subscribers
      queues := setAssoc qid [] s.queues
      nextQueue := qid + 1 }, qid)

/-- `ProgressTracker.unsubscribe`: drop the session's subscriber entry. -/
def unsubscribe (s : TrackerState) (session_id : String) : TrackerState :=
  { s with subscribers := (s.subscribers).filter (fun p => p.1 ≠ session_id) }

/-- `ProgressTracker.update_progress`: build the event, store it as the
latest progress for the session, and append it to the subscriber's queue
when one is attached. -/
def update_progress (s : TrackerState) (session_id : String)
    (step total_steps : ℕ) (agent_name status message : String) : TrackerState :=
  let update : ProgressEvent :=
    { step := step
      total_steps := total_steps
      progress_percent := progressPercent step total_steps
      agent_name := agent_name
      status := status
      message := message }
  let s1 := { s with progress_data := setAssoc session_id update s.progress_data }
  match getAssoc session_id s1.subscribers with
  | none => s1
  | some qid =>
      { s1 with
          queues := setAssoc qid (((getAssoc qid s1.queues).getD []) ++ [update]) s1.queues }

/-- `ProgressTracker.get_progress`. -/
def get_progress (s : TrackerState) (session_id : String) : Option ProgressEvent :=
  getAssoc session_id s.progress_data

/- ---------------------------------------------------------------------------
`create_plan_with_progress` (app/api/plan_with_progress.py lines 92-300):
the trace of `update_progress` calls it issues.
--------------------------------------------------------------------------- -/

/-- One `update_progress(session_id, step, total_steps, agent_name, status,
message)` call, minus the session id. -/
structure UpdateCall where
  step : ℕ
  total_steps : ℕ
  agent_name : String
  status : String
  message : String
deriving DecidableEq

/-- The event an `update_progress` call publishes. -/
def mkEvent (c : UpdateCall) : ProgressEvent :=
  { step := c.step
    total_steps := c.total_steps
    progress_percent := progressPercent c.step c.total_steps
    agent_name := c.agent_name
    status := c.status
    message := c.message }

/-- The eight `running` updates of `create_plan_with_progress`, in source
order (`total_steps = len(AGENT_STEPS) = 8`). -/
def pipelineRunningCalls : List UpdateCall :=
  [⟨1, 8, "RAGAgent", "running", "🔍 Retrieving historical insights from vector database..."⟩,
   ⟨2, 8, "PersonaAgent", "running", "👥 Generating 3 detailed customer personas..."⟩,
   ⟨3, 8, "LocationAgent", "running", "📍 Analyzing location demographics and optimal radius..."⟩,
   ⟨4, 8, "CompetitorAgent", "running", "🏆 Researching competitors and market opportunities..."⟩,
   ⟨5, 8, "PlannerAgent", "running", "💰 Creating 3 budget scenarios with channel allocation..."⟩,
   ⟨6, 8, "CreativeAgent", "running", "🎨 Generating creative assets and ad copy..."⟩,
   ⟨7, 8, "PerformanceAgent", "running", "📈 Predicting performance metrics and ROI..."⟩,
   ⟨8, 8, "CriticAgent", "running", "✅ Evaluating plan quality and scoring..."⟩]

/-- The terminal `done` update (`session_id, total_steps, total_steps,
"Complete", "done", ...`). -/
def doneCall : UpdateCall :=
  ⟨8, 8, "Complete", "done", "✨ Marketing plan generation complete!"⟩

/-- The `except` handler's update: `update_progress(session_id, 0,
total_steps, "Error", "error", f"❌ Error: {str(e)}")`. -/
def errorCall (msg : String) : UpdateCall :=
  ⟨0, 8, "Error", "error", "❌ Error: " ++ msg⟩

/-- Where (if anywhere) `create_plan_with_progress` raises:

* `failBefore`: an exception in the pre-pipeline work (session creation or
  profile storage), before the step-1 update;
* `failAtStep k`: the collaborator invoked for step `k+1` (or, for `k = 7`,
  the post-step-7 analytics block or the step-8 collaborator's surroundings)
  raises after that step's `running` update was published;
* `failAfterDone`: the plan persistence (`save_plan` / `store_plan`) raises
  after the `done` update;
* `success`: no exception. -/
inductive RunOutcome where
  | failBefore (msg : String) : RunOutcome
  | failAtStep (k : Fin 8) (msg : String) : RunOutcome
  | failAfterDone (msg : String) : RunOutcome
  | success : RunOutcome

/-- The `update_progress` calls `create_plan_with_progress` issues for a
given outcome: every step reached publishes its `running` update first, the
`done` update follows step 8, and any exception lands in the single
`except` handler, which publishes exactly one `error` update. -/
def runCalls : RunOutcome → List UpdateCall
  | .failBefore m => [errorCall m]
  | .failAtStep k m => pipelineRunningCalls.take (k.val + 1) ++ [errorCall m]
  | .failAfterDone m => pipelineRunningCalls ++ [doneCall, errorCall m]
  | .success => pipelineRunningCalls ++ [doneCall]

/-- The events those calls publish. -/
def eventsOf (o : RunOutcome) : List ProgressEvent := (runCalls o).map mkEvent

/-- Replaying a call trace against the tracker. -/
def applyCall (session_id : String) (s : TrackerState) (c : UpdateCall) : TrackerState :=
  update_progress s session_id c.step c.total_steps c.agent_name c.status c.message

/-- `create_plan_with_progress`'s effect on the tracker: replay its
`update_progress` calls. -/
def runPipeline (s : TrackerState) (session_id : String) (o : RunOutcome) : TrackerState :=
  (runCalls o).foldl (applyCall session_id) s

/-- The events a subscriber that subscribed before the run sees in its
queue: subscribe to a fresh tracker, run the pipeline, read the queue. -/
def observedEvents (o : RunOutcome) : List ProgressEvent :=
  let p := subscribe ⟨[], [], [], 0⟩ "session-1"
  (getAssoc p.2 (runPipeline p.1 "session-1" o).queues).getD []

/- ---------------------------------------------------------------------------
`stream_progress.event_generator` (app/api/plan_with_progress.py lines 49-87)
--------------------------------------------------------------------------- -/

/-- The generator's forwarding loop on the events available from its queue
(the timeout/keep-alive branch is not entered while events keep arriving):
each received event is yielded, and the loop `break`s exactly when
`update.get("progress_percent") == 100`. -/
def streamForward : List ProgressEvent → List ProgressEvent
  | [] => []
  | e :: rest => e :: (if e.progress_percent = 100 then [] else streamForward rest)

/- ---------------------------------------------------------------------------
Supporting lemmas
--------------------------------------------------------------------------- -/

lemma getAssoc_setAssoc_self {α β : Type} [DecidableEq α] (k : α) (v : β) :
    ∀ l : List (α × β), getAssoc k (setAssoc k v l) = some v := by
  intro l
  induction l with
  | nil => simp [setAssoc, getAssoc]
  | cons p rest ih =>
      by_cases h : p.1 = k
      · simp [setAssoc, getAssoc, h]
      · simp [setAssoc, getAssoc, h, ih]

lemma getAssoc_setAssoc_ne {α β : Type} [DecidableEq α] {k k' : α} (v : β)
    (hne : k ≠ k') : ∀ l : List (α × β), getAssoc k' (setAssoc k v l) = getAssoc k' l := by
  intro l
  induction l with
  | nil => simp [setAssoc, getAssoc, hne]
  | cons p rest ih =>
      by_cases h : p.1 = k
      · subst h
        simp [setAssoc, getAssoc, hne, Ne.symm hne]
      · by_cases h' : p.1 = k'
        · subst h'
          simp [setAssoc, getAssoc, h, Ne.symm hne]
        · simp [setAssoc, getAssoc, h, h', ih]

/-- `update_progress` never touches the subscriber map. -/
lemma subscribers_update_progress (s : TrackerState) (sid : String)
    (step total : ℕ) (agent status msg : String) :
    (update_progress s sid step total agent status msg).subscribers = s.subscribers := by
  rw [update_progress]
  cases h : getAssoc sid s.subscribers <;> simp [h]

/-- With a subscriber attached, `update_progress` appends exactly the built
event to that subscriber's queue and touches no other queue entry. -/
lemma queue_update_progress (s : TrackerState) (sid : String) (qid : ℕ)
    (q : List ProgressEvent) (step total : ℕ) (agent status msg : String)
    (hsub : getAssoc sid s.subscribers = some qid)
    (hq : getAssoc qid s.queues = some q) :
    getAssoc qid (update_progress s sid step total agent status msg).queues
      = some (q ++ [mkEvent ⟨step, total, agent, status, msg⟩]) := by
  rw [update_progress]
  simp only [hsub]
  simp [getAssoc_setAssoc_self, hq, mkEvent]

/-- Replaying a call list appends exactly the corresponding events to the
attached subscriber's queue. -/
lemma foldl_applyCall_queue (sid : String) (qid : ℕ) :
    ∀ (cs : List UpdateCall) (s : TrackerState) (q : List ProgressEvent),
      getAssoc sid s.subscribers = some qid →
      getAssoc qid s.queues = some q →
      getAssoc qid ((cs.foldl (applyCall sid) s)).queues = some (q ++ cs.map mkEvent) := by
  intro cs
  induction cs with
  | nil => intro s q hsub hq; simpa using hq
  | cons c rest ih =>
      intro s q hsub hq
      have hq' := queue_update_progress s sid qid q c.step c.total_steps
        c.agent_name c.status c.message hsub hq
      have hsub' : getAssoc sid (applyCall sid s c).subscribers = some qid := by
        rw [applyCall, subscribers_update_progress]; exact hsub
      have := ih (applyCall sid s c) (q ++ [mkEvent c]) hsub' (by rw [applyCall]; exact hq')
      simpa using this

/-- The subscriber attached before the run reads exactly the run's events. -/
lemma observedEvents_eq (o : RunOutcome) : observedEvents o = eventsOf o := by
  have hsubbed : subscribe (⟨[], [], [], 0⟩ : TrackerState) "session-1"
      = (⟨[], [("session-1", 0)], [(0, [])], 1⟩, 0) := rfl
  rw [observedEvents, runPipeline, hsubbed]
  rw [foldl_applyCall_queue "session-1" 0 (runCalls o) _ []
    (by simp [getAssoc]) (by simp [getAssoc])]
  simp [eventsOf]

lemma progressPercent_0_8 : progressPercent 0 8 = 0 := by norm_num [progressPercent, pytruncQ]

lemma progressPercent_1_8 : progressPercent 1 8 = 12 := by norm_num [progressPercent, pytruncQ]

lemma progressPercent_2_8 : progressPercent 2 8 = 25 := by norm_num [progressPercent, pytruncQ]

lemma progressPercent_3_8 : progressPercent 3 8 = 37 := by norm_num [progressPercent, pytruncQ]

lemma progressPercent_4_8 : progressPercent 4 8 = 50 := by norm_num [progressPercent, pytruncQ]

lemma progressPercent_5_8 : progressPercent 5 8 = 62 := by norm_num [progressPercent, pytruncQ]

lemma progressPercent_6_8 : progressPercent 6 8 = 75 := by norm_num [progressPercent, pytruncQ]

lemma progressPercent_7_8 : progressPercent 7 8 = 87 := by norm_num [progressPercent, pytruncQ]

lemma progressPercent_8_8 : progressPercent 8 8 = 100 := by norm_num [progressPercent, pytruncQ]

/-- A string without digit/comma characters produces no tokens. -/
lemma scanTokens_eq_nil {s : List Char} (h : ∀ c ∈ s, isTok c = false) :
    scanTokens s = [] := by
  have key : ∀ (l : List Char) (acc : List (List Char)),
      (∀ c ∈ l, isTok c = false) →
      l.foldl (fun st c =>
        if isTok c then (st.1, st.2 ++ [c])
        else if st.2 = [] then (st.1, ([] : List Char))
        else (st.1 ++ [st.2], [])) (acc, []) = (acc, []) := by
    intro l
    induction l with
    | nil => intro acc _; rfl
    | cons c rest ih =>
        intro acc hall
        have hc : isTok c = false := hall c (by simp)
        simp only [List.foldl_cons, hc]
        simpa using ih acc (fun x hx => hall x (by simp [hx]))
  rw [scanTokens]
  simp only [key s [] h]
  rfl

/- ---------------------------------------------------------------------------
Claim theorems
--------------------------------------------------------------------------- -/

/-- C4 counterexample: at `currentBudget = 2500`, `targetMultiplier = 2`,
the code returns `recommended_budget = 6155`, while `currentBudget ×
targetMultiplier^1.3` rounded to the NEAREST integer is `6156` (the exact
product lies in `[6155.5, 6156)`), so the claim is false as stated. -/
theorem recommended_budget_is_not_nearest_rounding :
    (calculate_budget_scaling 2500 15000 20000 2).map (fun b => b.recommended_budget)
      = some 6155
    ∧ round ((2500 : ℝ) * (2 : ℝ) ^ ((13 : ℝ) / 10)) = 6156
    ∧ (6155 : ℤ) ≠ 6156 := by
  refine ⟨?_, round_budget_2500, by decide⟩
  rw [calculate_budget_scaling_nonneg 2500 15000 20000 2 (by norm_num), Option.map_some']
  have hfield : (budgetScalingDict 2500 15000 20000 2).recommended_budget
      = pytruncR (((2500 : ℤ) : ℝ) * (2 : ℝ) ^ ((13 : ℝ) / 10)) := rfl
  have hcast : (((2500 : ℤ) : ℝ)) = (2500 : ℝ) := by norm_num
  rw [hfield, hcast, pytrunc_budget_2500]

/-- C4 (amended): for every positive budget and every multiplier above 1,
the function returns a dictionary whose `recommended_budget` is
`currentBudget × targetMultiplier^1.3` rounded DOWN (floor/`int()`
truncation), i.e. it is the unique integer within distance 1 below the
exact product. -/
theorem recommended_budget_is_floor (current_budget : ℤ)
    (current_reach_min current_reach_max : ℕ) (target_multiplier : ℝ)
    (hb : 0 < current_budget) (hm : 1 < target_multiplier) :
    ∃ b, calculate_budget_scaling current_budget current_reach_min current_reach_max
        target_multiplier = some b
      ∧ ((b.recommended_budget : ℝ)
          ≤ (current_budget : ℝ) * target_multiplier ^ ((13 : ℝ) / 10)
        ∧ (current_budget : ℝ) * target_multiplier ^ ((13 : ℝ) / 10)
          < b.recommended_budget + 1) := by
  have hpos : (0 : ℝ) ≤ (current_budget : ℝ) * target_multiplier ^ ((13 : ℝ) / 10) := by
    have h1 : (0 : ℝ) < target_multiplier ^ ((13 : ℝ) / 10) :=
      Real.rpow_pos_of_pos (by linarith) _
    have h2 : (0 : ℝ) < (current_budget : ℝ) := by exact_mod_cast hb
    positivity
  have key : ((pytruncR ((current_budget : ℝ) * target_multiplier ^ ((13 : ℝ) / 10)) : ℤ) : ℝ)
        ≤ (current_budget : ℝ) * target_multiplier ^ ((13 : ℝ) / 10)
      ∧ (current_budget : ℝ) * target_multiplier ^ ((13 : ℝ) / 10)
        < (pytruncR ((current_budget : ℝ) * target_multiplier ^ ((13 : ℝ) / 10)) : ℝ) + 1 := by
    rw [pytruncR, if_pos hpos]
    exact ⟨Int.floor_le _, Int.lt_floor_add_one _⟩
  exact ⟨budgetScalingDict current_budget current_reach_min current_reach_max target_multiplier,
    calculate_budget_scaling_nonneg _ _ _ _ (by linarith), key⟩

/-- Witness for the amended C4 at the reference input. -/
theorem recommended_budget_is_floor_witness :
    (0 : ℤ) < 2500 ∧ (1 : ℝ) < 2
    ∧ ∃ b, calculate_budget_scaling 2500 15000 20000 2 = some b
      ∧ ((b.recommended_budget : ℝ) ≤ ((2500 : ℤ) : ℝ) * (2 : ℝ) ^ ((13 : ℝ) / 10)
        ∧ ((2500 : ℤ) : ℝ) * (2 : ℝ) ^ ((13 : ℝ) / 10) < b.recommended_budget + 1) :=
  ⟨by norm_num, by norm_num,
    recommended_budget_is_floor 2500 15000 20000 2 (by norm_num) (by norm_num)⟩

/-- C5: the reference evaluation `calculate_budget_scaling(2500, 15000,
20000, 2.0)` yields `target_reach_range = "30,000-40,000"`,
`recommended_budget = 6155` and `budget_increase_percent = 146.2`. -/
theorem budget_scaling_reference_values :
    (calculate_budget_scaling 2500 15000 20000 2).map
        (fun b => (b.target_reach_range, b.recommended_budget, b.budget_increase_percent))
      = some ("30,000-40,000", 6155, 146.2) := by
  rw [calculate_budget_scaling_nonneg 2500 15000 20000 2 (by norm_num), Option.map_some']
  have hcast : (((2500 : ℤ) : ℝ)) = (2500 : ℝ) := by norm_num
  have hrb : (budgetScalingDict 2500 15000 20000 2).recommended_budget = 6155 := by
    have hfield : (budgetScalingDict 2500 15000 20000 2).recommended_budget
        = pytruncR (((2500 : ℤ) : ℝ) * (2 : ℝ) ^ ((13 : ℝ) / 10)) := rfl
    rw [hfield, hcast, pytrunc_budget_2500]
  have htr : (budgetScalingDict 2500 15000 20000 2).target_reach_range
      = "30,000-40,000" := by
    have hfield : (budgetScalingDict 2500 15000 20000 2).target_reach_range
        = commaFmtZ (pytruncR (((15000 : ℕ) : ℝ) * 2)) ++ "-"
          ++ commaFmtZ (pytruncR (((20000 : ℕ) : ℝ) * 2)) := rfl
    have hmin : pytruncR (((15000 : ℕ) : ℝ) * 2) = 30000 := by
      rw [pytruncR, if_pos (by norm_num)]
      norm_num
    have hmax : pytruncR (((20000 : ℕ) : ℝ) * 2) = 40000 := by
      rw [pytruncR, if_pos (by norm_num)]
      norm_num
    rw [hfield, hmin, hmax]
    decide
  have hbip : (budgetScalingDict 2500 15000 20000 2).budget_increase_percent = 146.2 := by
    have hfield : (budgetScalingDict 2500 15000 20000 2).budget_increase_percent
        = if (0 : ℤ) < 2500 then
            roundR 1 ((((budgetScalingDict 2500 15000 20000 2).recommended_budget : ℝ)
              / ((2500 : ℤ) : ℝ) - 1) * 100)
          else 0 := rfl
    rw [hfield, if_pos (by norm_num), hrb, hcast]
    rw [roundR, round_eq]
    norm_num
  rw [htr, hrb, hbip]

/-- C6: the reference evaluation `calculate_reach_percentage("15,000-20,000",
"San Francisco", True)`: the San Francisco table entry 1,200,000 scaled by
the local addressable fraction 0.25 gives `target_population = 300000`,
`percentage_min = 5.0`, `percentage_max = 6.7`. -/
theorem reach_reference_values :
    calculate_reach_percentage "15,000-20,000" "San Francisco" true
      = some (.result 15000 20000 300000 5 6.7) := by
  have hp : parseReachTokens "15,000-20,000" = .bounds 15000 20000 := by decide
  have ht : targetPopulation "San Francisco" true = 300000 := by decide
  simp only [calculate_reach_percentage, hp, ht]
  norm_num [roundQ, round_eq]

/-- C7 counterexample: at `targetMultiplier = -2` the call does not return
zero cost-per-reach fields at all — `math.pow(-2.0, 1.3)` raises
`ValueError` (finite negative base, non-integral exponent) before the cost
fields are computed, modelled by `none`. -/
theorem negative_multiplier_raises :
    calculate_budget_scaling 2500 0 0 (-2) = none := by
  unfold calculate_budget_scaling
  rw [if_pos (by norm_num : (-2 : ℝ) < 0)]

/-- C7 (amended): for every budget and every NON-NEGATIVE multiplier
(where `math.pow` succeeds), with both reach bounds 0 the function returns
a dictionary whose two cost-per-reach fields are 0 — the zero-average
guards fire and no division is attempted; for a negative multiplier the
call raises `ValueError` from `math.pow`, so in no case is a
division-by-zero error raised. -/
theorem zero_reach_no_division (current_budget : ℤ) (target_multiplier : ℝ)
    (h : 0 ≤ target_multiplier) :
    (calculate_budget_scaling current_budget 0 0 target_multiplier).map
        (fun b => (b.current_cost_per_reach, b.new_cost_per_reach))
      = some (0, 0) := by
  rw [calculate_budget_scaling_nonneg _ _ _ _ (not_lt.mpr h), Option.map_some']
  have h1 : (budgetScalingDict current_budget 0 0 target_multiplier).current_cost_per_reach
      = 0 := by
    simp [budgetScalingDict, pytruncR, roundR]
  have h2 : (budgetScalingDict current_budget 0 0 target_multiplier).new_cost_per_reach
      = 0 := by
    simp [budgetScalingDict, pytruncR, roundR]
  rw [h1, h2]

/-- Witness for the amended C7 at a concrete non-negative multiplier. -/
theorem zero_reach_no_division_witness :
    (0 : ℝ) ≤ 2
    ∧ (calculate_budget_scaling 2500 0 0 2).map
        (fun b => (b.current_cost_per_reach, b.new_cost_per_reach))
      = some (0, 0) :=
  ⟨by norm_num, zero_reach_no_division 2500 2 (by norm_num)⟩

/-- C8 counterexample: `","` contains no digit at all (so no integer-like
numeric token in the claim's sense), yet `calculate_reach_percentage`
raises a `ValueError` (modelled `none`) instead of returning the degenerate
result: the regex `[\d,]+` matches the bare comma and `int("")` fails. -/
theorem comma_only_reach_text_raises :
    calculate_reach_percentage "," "x" false = none
    ∧ (",".data.any (fun c => c.isDigit)) = false := by
  decide

/-- C8 (amended): for ASCII reach text containing neither a digit nor a
comma (so the token scan finds nothing), the function returns the
degenerate "Unknown" result and never raises. -/
theorem no_token_chars_degenerate (reach_string location : String) (is_local : Bool)
    (h : ∀ c ∈ reach_string.data, c.toNat < 128 ∧ isTok c = false) :
    calculate_reach_percentage reach_string location is_local
      = some .unknown := by
  have hscan : scanTokens reach_string.data = [] :=
    scanTokens_eq_nil (fun c hc => (h c hc).2)
  unfold calculate_reach_percentage parseReachTokens
  rw [hscan]

/-- Witness for the amended C8 at the spec's own example input. -/
theorem no_token_chars_degenerate_witness :
    (∀ c ∈ ("no numeric data here" : String).data, c.toNat < 128 ∧ isTok c = false)
    ∧ calculate_reach_percentage "no numeric data here" "Unknown Town" false
      = some .unknown :=
  ⟨by decide, no_token_chars_degenerate "no numeric data here" "Unknown Town" false (by decide)⟩

/-- `update_progress` leaves every queue other than the attached
subscriber's untouched. -/
lemma queue_update_progress_other (s : TrackerState) (sid : String) (qid' : ℕ)
    (step total : ℕ) (agent status msg : String)
    (h : ∀ qid, getAssoc sid s.subscribers = some qid → qid' ≠ qid) :
    getAssoc qid' (update_progress s sid step total agent status msg).queues
      = getAssoc qid' s.queues := by
  rw [update_progress]
  cases hs : getAssoc sid s.subscribers with
  | none => simp [hs]
  | some qid =>
      simp only [hs]
      exact getAssoc_setAssoc_ne _ (Ne.symm (h qid hs)) _

/-- Replaying any call list for a session leaves every queue other than
the attached subscriber's untouched. -/
lemma foldl_applyCall_queue_other (sid : String) (qid' : ℕ) :
    ∀ (cs : List UpdateCall) (s : TrackerState),
      (∀ qid, getAssoc sid s.subscribers = some qid → qid' ≠ qid) →
      getAssoc qid' ((cs.foldl (applyCall sid) s)).queues = getAssoc qid' s.queues := by
  intro cs
  induction cs with
  | nil => intro s _; rfl
  | cons c rest ih =>
      intro s h
      have hstep : getAssoc qid' (applyCall sid s c).queues = getAssoc qid' s.queues :=
        queue_update_progress_other s sid qid' c.step c.total_steps
          c.agent_name c.status c.message h
      have h' : ∀ qid, getAssoc sid (applyCall sid s c).subscribers = some qid →
          qid' ≠ qid := by
        intro qid hq
        apply h
        rwa [applyCall, subscribers_update_progress] at hq
      rw [List.foldl_cons, ih (applyCall sid s c) h', hstep]

/-- C9: a second `subscribe` for the same session supersedes the first: the
second queue starts empty (no events before any publish), and across ANY
sequence of subsequent publishes for that session the second subscriber's
queue holds exactly the published events while the first subscriber's
queue stays empty — every subsequently published event is delivered only
to the second queue; the two queues are distinct. -/
theorem resubscribe_supersedes (st : TrackerState) (sid : String) (cs : List UpdateCall) :
    getAssoc (subscribe (subscribe st sid).1 sid).2
        (subscribe (subscribe st sid).1 sid).1.queues = some []
    ∧ getAssoc (subscribe (subscribe st sid).1 sid).2
        (cs.foldl (applyCall sid) (subscribe (subscribe st sid).1 sid).1).queues
      = some (cs.map mkEvent)
    ∧ getAssoc (subscribe st sid).2
        (cs.foldl (applyCall sid) (subscribe (subscribe st sid).1 sid).1).queues
      = some []
    ∧ (subscribe st sid).2 ≠ (subscribe (subscribe st sid).1 sid).2 := by
  have hq1 : (subscribe st sid).2 = st.nextQueue := rfl
  have hq2 : (subscribe (subscribe st sid).1 sid).2 = st.nextQueue + 1 := rfl
  have hsubs : getAssoc sid (subscribe (subscribe st sid).1 sid).1.subscribers
      = some (st.nextQueue + 1) := by
    show getAssoc sid
      (setAssoc sid (st.nextQueue + 1) (setAssoc sid st.nextQueue st.subscribers)) = _
    exact getAssoc_setAssoc_self _ _ _
  have hqueues : getAssoc (st.nextQueue + 1)
      (subscribe (subscribe st sid).1 sid).1.queues = some [] := by
    show getAssoc (st.nextQueue + 1)
      (setAssoc (st.nextQueue + 1) [] (setAssoc st.nextQueue [] st.queues)) = _
    exact getAssoc_setAssoc_self _ _ _
  refine ⟨by rw [hq2]; exact hqueues, ?_, ?_, ?_⟩
  · rw [hq2]
    have := foldl_applyCall_queue sid (st.nextQueue + 1) cs
      (subscribe (subscribe st sid).1 sid).1 [] hsubs hqueues
    simpa using this
  · rw [hq1]
    have hne : ∀ qid,
        getAssoc sid (subscribe (subscribe st sid).1 sid).1.subscribers = some qid →
        st.nextQueue ≠ qid := by
      intro qid hqid
      rw [hsubs] at hqid
      injection hqid with h
      omega
    rw [foldl_applyCall_queue_other sid st.nextQueue cs
      (subscribe (subscribe st sid).1 sid).1 hne]
    show getAssoc st.nextQueue
      (setAssoc (st.nextQueue + 1) [] (setAssoc st.nextQueue [] st.queues)) = some []
    rw [getAssoc_setAssoc_ne _ (by omega)]
    exact getAssoc_setAssoc_self _ _ _
  · rw [hq1, hq2]
    omega

/-- C3 counterexample: the generator forwards a `status=error` event
(whose `progress_percent` is 0, as the pipeline's error handler produces)
and then KEEPS READING — the next queued event is also forwarded, because
the loop breaks only on `progress_percent == 100`, never on status. -/
theorem stream_reads_past_error_event :
    streamForward
        [⟨0, 8, 0, "Error", "error", "❌ Error: boom"⟩,
         ⟨5, 8, 62, "PlannerAgent", "running", "later event"⟩]
      = [⟨0, 8, 0, "Error", "error", "❌ Error: boom"⟩,
         ⟨5, 8, 62, "PlannerAgent", "running", "later event"⟩]
    ∧ (⟨0, 8, 0, "Error", "error", "❌ Error: boom"⟩ : ProgressEvent).status = "error" := by
  decide

/-- C3 (amended): the generator forwards every received event and closes
the stream exactly when the forwarded event has `progress_percent = 100`
(whatever its status — in a successful run that is already the step-8
`running` event); any event with `progress_percent ≠ 100`, in particular
the pipeline's `error` events, leaves the stream open. -/
theorem stream_closes_iff_percent_100 (e : ProgressEvent) (rest : List ProgressEvent) :
    (e.progress_percent = 100 → streamForward (e :: rest) = [e])
    ∧ (e.progress_percent ≠ 100 → streamForward (e :: rest) = e :: streamForward rest) := by
  constructor <;> intro h <;> simp [streamForward, h]

/-- Witness for the amended C3 on a terminal `done` event. -/
theorem stream_closes_iff_percent_100_witness :
    ((⟨8, 8, 100, "Complete", "done", "✨ Marketing plan generation complete!"⟩ :
        ProgressEvent).progress_percent = 100)
    ∧ streamForward
        [⟨8, 8, 100, "Complete", "done", "✨ Marketing plan generation complete!"⟩,
         ⟨0, 8, 0, "Error", "error", "❌ Error: late"⟩]
      = [⟨8, 8, 100, "Complete", "done", "✨ Marketing plan generation complete!"⟩] :=
  ⟨rfl,
    (stream_closes_iff_percent_100
      ⟨8, 8, 100, "Complete", "done", "✨ Marketing plan generation complete!"⟩
      [⟨0, 8, 0, "Error", "error", "❌ Error: late"⟩]).1 rfl⟩

/-- C1 counterexample: on a run whose first collaborator raises, the
subscriber observes progress 12 (step 1 `running`) followed by progress 0
(the `error` event, published with `step = 0`), so the observed
`progress_percent` sequence is NOT non-decreasing. -/
theorem failing_run_percent_not_monotone :
    ¬ List.Chain' (· ≤ ·)
      ((observedEvents (.failAtStep 0 "boom")).map (fun e => e.progress_percent)) := by
  rw [observedEvents_eq]
  simp [eventsOf, runCalls, pipelineRunningCalls, errorCall, mkEvent,
    progressPercent_1_8, progressPercent_0_8]

/-- C1 (amended): every published `progress_percent` lies in `[0, 100]` for
every outcome, and on a successful run the observed sequence of
`progress_percent` values is non-decreasing; on a failing run the terminal
`error` event carries `progress_percent = 0`, which breaks monotonicity
whenever a step event preceded it. -/
theorem percent_bounded_and_success_monotone (o : RunOutcome) :
    (∀ e ∈ observedEvents o, 0 ≤ e.progress_percent ∧ e.progress_percent ≤ 100)
    ∧ (o = .success → List.Chain' (· ≤ ·)
        ((observedEvents o).map (fun e => e.progress_percent))) := by
  rw [observedEvents_eq]
  cases o with
  | failBefore m =>
      refine ⟨?_, fun h => RunOutcome.noConfusion h⟩
      simp [eventsOf, runCalls, errorCall, mkEvent, progressPercent_0_8]
  | failAtStep k m =>
      refine ⟨?_, fun h => RunOutcome.noConfusion h⟩
      fin_cases k <;>
        simp [eventsOf, runCalls, pipelineRunningCalls, errorCall, mkEvent,
          progressPercent_0_8, progressPercent_1_8, progressPercent_2_8,
          progressPercent_3_8, progressPercent_4_8, progressPercent_5_8,
          progressPercent_6_8, progressPercent_7_8, progressPercent_8_8]
  | failAfterDone m =>
      refine ⟨?_, fun h => RunOutcome.noConfusion h⟩
      simp [eventsOf, runCalls, pipelineRunningCalls, doneCall, errorCall, mkEvent,
        progressPercent_0_8, progressPercent_1_8, progressPercent_2_8,
        progressPercent_3_8, progressPercent_4_8, progressPercent_5_8,
        progressPercent_6_8, progressPercent_7_8, progressPercent_8_8]
  | success =>
      refine ⟨?_, fun _ => ?_⟩ <;>
        simp [eventsOf, runCalls, pipelineRunningCalls, doneCall, mkEvent,
          progressPercent_1_8, progressPercent_2_8, progressPercent_3_8,
          progressPercent_4_8, progressPercent_5_8, progressPercent_6_8,
          progressPercent_7_8, progressPercent_8_8, List.chain'_cons]

/-- Witness for the amended C1 on a successful run, with the monotonicity
implication discharged. -/
theorem percent_bounded_and_success_monotone_witness :
    (∀ e ∈ observedEvents .success, 0 ≤ e.progress_percent ∧ e.progress_percent ≤ 100)
    ∧ List.Chain' (· ≤ ·)
        ((observedEvents .success).map (fun e => e.progress_percent)) :=
  ⟨(percent_bounded_and_success_monotone .success).1,
   (percent_bounded_and_success_monotone .success).2 rfl⟩

/-- The error update's event: `step = 0` makes its `progress_percent` 0. -/
lemma mkEvent_errorCall (m : String) :
    mkEvent (errorCall m) = ⟨0, 8, 0, "Error", "error", "❌ Error: " ++ m⟩ := by
  simp [mkEvent, errorCall, progressPercent_0_8]

/-- The percent trace of a run failing at step 5 (index 4). -/
lemma percents_failAtStep4 (m : String) :
    (eventsOf (.failAtStep 4 m)).map (fun e => e.progress_percent)
      = [12, 25, 37, 50, 62, 0] := by
  have h4 : ((4 : Fin 8) : ℕ) = 4 := rfl
  simp [eventsOf, runCalls, pipelineRunningCalls, errorCall, mkEvent, h4,
    progressPercent_0_8, progressPercent_1_8, progressPercent_2_8,
    progressPercent_3_8, progressPercent_4_8, progressPercent_5_8]

/-- C2 counterexample: when step 5's collaborator raises, the last
previously published `progress_percent` is 62, but the single `error`
event is published with `progress_percent = 0` — the value is reset, not
left at the last known value. -/
theorem error_event_percent_resets :
    ((observedEvents (.failAtStep 4 "LLM call failed")).map
        (fun e => e.progress_percent)).getLast? = some 0
    ∧ (((observedEvents (.failAtStep 4 "LLM call failed")).map
        (fun e => e.progress_percent)).dropLast).getLast? = some 62
    ∧ (0 : ℤ) ≠ 62 := by
  rw [observedEvents_eq]
  rw [percents_failAtStep4]
  refine ⟨?_, ?_, by decide⟩ <;> decide

/-- C2 (amended): whichever step's collaborator raises, exactly one
`status=error` event is published; it is the final event, its message is
the exception's message prefixed with `"❌ Error: "`, and its
`progress_percent` is 0 (recomputed from `step = 0`), not the last
published value. -/
theorem single_error_event_with_message (k : Fin 8) (m : String) :
    (observedEvents (.failAtStep k m)).filter (fun e => e.status == "error")
      = [⟨0, 8, 0, "Error", "error", "❌ Error: " ++ m⟩]
    ∧ (observedEvents (.failAtStep k m)).getLast?
      = some ⟨0, 8, 0, "Error", "error", "❌ Error: " ++ m⟩ := by
  rw [observedEvents_eq]
  fin_cases k <;>
    simp [eventsOf, runCalls, pipelineRunningCalls, errorCall, mkEvent,
      progressPercent_0_8, progressPercent_1_8, progressPercent_2_8, progressPercent_3_8,
      progressPercent_4_8, progressPercent_5_8, progressPercent_6_8,
      progressPercent_7_8, progressPercent_8_8]

/-- C10: when the post-`done` persistence raises, the session's published
sequence is the eight `running` events, the `done` event (percent 100), and
then one more `error` event with `progress_percent = 0` — an error event
AFTER a done event, as `create_plan_with_progress`'s `except` handler runs
regardless of how far the `try` block got. -/
theorem error_event_after_done (m : String) :
    (observedEvents (.failAfterDone m)).map (fun e => (e.status, e.progress_percent))
      = [("running", 12), ("running", 25), ("running", 37), ("running", 50),
         ("running", 62), ("running", 75), ("running", 87), ("running", 100),
         ("done", 100), ("error", 0)] := by
  rw [observedEvents_eq]
  simp [eventsOf, runCalls, pipelineRunningCalls, doneCall, errorCall, mkEvent,
    progressPercent_0_8, progressPercent_1_8, progressPercent_2_8,
    progressPercent_3_8, progressPercent_4_8, progressPercent_5_8,
    progressPercent_6_8, progressPercent_7_8, progressPercent_8_8]
